import Mathlib

/-!
Verification development for the wlkata-mirobot-python link-protocol client.

The definitions below are a shallow embedding of the protocol-handling code in
src/wlkata_mirobot (and its historical twin src/mirobot):
the response matcher WlkataMirobotSerial.wait_for_ok, the status parser
WlkataMirobot._parse_status, the status-fetch loop WlkataMirobot.get_status,
the idle poller WlkataMirobotSerial.wait_until_idle, the command session
WlkataMirobot.send_msg, the argument encoder generate_args_string and the
serial transport close/disconnect path DeviceSerial.close.

Python strings are modelled as Lean String, scripted device input as a
List String of the lines successive readline calls deliver, Python float
values as rationals, and an ERROR-level log record emitted through
ExitOnExceptionStreamHandler (whose emit raises SystemExit for any record at
level ERROR or above) as an aborting outcome carrying the logged condition.
-/

/-- Strip a literal character sequence from the front of a list, returning the
remainder on success.  Used both for Python substring tests and for the literal
parts of the status regular expression. -/
def takesLit : List Char → List Char → Option (List Char)
  | [], cs => some cs
  | _ :: _, [] => none
  | l :: ls, c :: cs => if l = c then takesLit ls cs else none

/-- Python substring test: needle in hay. -/
def occursInAux (needle : List Char) : List Char → Bool
  | [] => (takesLit needle []).isSome
  | c :: t => (takesLit needle (c :: t)).isSome || occursInAux needle t

/-- Python substring containment, needle in hay. -/
def occursIn (needle hay : String) : Bool :=
  occursInAux needle.data hay.data

/-- Python s.endswith(suffix). -/
def tailMatch (s suffix : String) : Bool :=
  (takesLit suffix.data.reverse s.data.reverse).isSome

/-- The helper matches_eol_strings of wait_for_ok: a line matches when it ends
with one of the terms or contains one of them. -/
def matchesEolStrings (terms : List String) (s : String) : Bool :=
  terms.any (fun eol => tailMatch s eol || occursIn eol s)

/-- The condition a wait_for_ok line aborts with.  In the source the logger
error call raises SystemExit out of the wait through
ExitOnExceptionStreamHandler.emit; the tag records which condition was logged
(MirobotError, MirobotAlarm, the IndexError from splitting a line that
contains ALARM without the colon form, or MirobotReset). -/
inductive AbortTag where
  | err : AbortTag
  | alarm : AbortTag
  | indexErr : AbortTag
  | reset : AbortTag
  | statusErr : AbortTag
deriving DecidableEq

/-- Outcome of wait_for_ok on a scripted line sequence: a normal return with
the collected lines and the unconsumed remainder of the script, an abort
raised out of the loop, or an infinite loop once the script is exhausted
(readline then yields empty strings forever, which never match). -/
inductive OkWaitOutcome where
  | done : List String → List String → OkWaitOutcome
  | raised : AbortTag → OkWaitOutcome
  | hang : OkWaitOutcome
deriving DecidableEq

/-- Loop body of WlkataMirobotSerial.wait_for_ok (identical in
SerialInterface.wait_for_ok): while the eol counter is below the threshold,
read a line; a line containing error logs MirobotError at ERROR level (which
raises), a line containing ALARM logs MirobotAlarm (raising; if the line has
no colon form the split indexing itself raises); otherwise the line is
appended, an unexpected reset phrase logs MirobotReset (raising), and a line
matching the eol terms increments the counter. -/
def waitForOkAux (resetExpected : Bool) (eols rsts : List String) (threshold : ℕ) :
    List String → List String → ℕ → OkWaitOutcome
  | [], output, counter =>
    if threshold ≤ counter then .done output [] else .hang
  | msg :: rest, output, counter =>
    if threshold ≤ counter then .done output (msg :: rest)
    else
      if occursIn "error" msg then .raised .err
      else if occursIn "ALARM" msg then
        (if occursIn "ALARM: " msg then .raised .alarm else .raised .indexErr)
      else
        if !resetExpected && matchesEolStrings rsts msg then .raised .reset
        else
          waitForOkAux resetExpected eols rsts threshold rest (output ++ [msg])
            (if matchesEolStrings eols msg then counter + 1 else counter)

/-- WlkataMirobotSerial.wait_for_ok: the ok terms, the reset phrase, the
platform-dependent threshold (1 in both branches of the source if), the
synthetic empty seed element of the output list and its removal from the
returned value. -/
def waitForOk (osNt resetExpected : Bool) (script : List String) : OkWaitOutcome :=
  let okEols := ["ok"]
  let resetStrs := ["Using reset pos!"]
  let eols := if resetExpected then okEols ++ resetStrs else okEols
  let threshold := if osNt && !resetExpected then 1 else 1
  match waitForOkAux resetExpected eols resetStrs threshold script [""] 0 with
  | .done out leftover => .done (out.drop 1) leftover
  | r => r

example : waitForOk false false ["hello", "ok"] = .done ["hello", "ok"] [] := by decide
example : waitForOk true false ["error", "ok"] = .raised .err := by decide
example : waitForOk false false ["ok", "Using reset pos!"] = .done ["ok"] ["Using reset pos!"] := by decide
example : waitForOk false false ["Using reset pos!"] = .raised .reset := by decide
example : waitForOk false false ["ALARM: x"] = .raised .alarm := by decide
example : waitForOk true true ["Using reset pos!"] = .done ["Using reset pos!"] [] := by decide

/-- A line that triggers none of the special cases of the wait_for_ok loop
body: no error substring, no ALARM substring, no reset phrase, and no ok
match (neither suffix nor substring). -/
def quietBeforeOk (l : String) : Bool :=
  !(occursIn "error" l) && !(occursIn "ALARM" l) &&
    !(matchesEolStrings ["Using reset pos!"] l) && !(matchesEolStrings ["ok"] l)

/-- Lines that trigger nothing are collected one by one and leave the
acknowledgement counter at zero. -/
theorem waitForOkAux_quiet (prior : List String)
    (h : ∀ l ∈ prior, quietBeforeOk l = true) (rest : List String) :
    ∀ out, waitForOkAux false ["ok"] ["Using reset pos!"] 1 (prior ++ rest) out 0 =
      waitForOkAux false ["ok"] ["Using reset pos!"] 1 rest (out ++ prior) 0 := by
  induction prior with
  | nil => intro out; simp
  | cons l tl ih =>
    intro out
    have hq := h l (List.mem_cons_self l tl)
    simp only [quietBeforeOk, Bool.and_eq_true, Bool.not_eq_true'] at hq
    obtain ⟨⟨⟨he, ha⟩, hr⟩, hok⟩ := hq
    have htl : ∀ x ∈ tl, quietBeforeOk x = true := fun x hx => h x (List.mem_cons_of_mem l hx)
    have hstep : waitForOkAux false ["ok"] ["Using reset pos!"] 1 (l :: (tl ++ rest)) out 0 =
        waitForOkAux false ["ok"] ["Using reset pos!"] 1 (tl ++ rest) (out ++ [l]) 0 := by
      simp [waitForOkAux, he, ha, hr, hok]
    rw [List.cons_append, hstep, ih htl (out ++ [l])]
    simp

/-- Claim C1 (counterexample to the claim as stated): the scripted sequence
with prior line error and last line ok satisfies the claim's hypothesis (no
prior line contains or ends with ok) yet wait_for_ok does not return the
collected lines: the error line is logged at ERROR level and the
ExitOnExceptionStreamHandler raises out of the wait, on Windows and POSIX
alike. -/
theorem c1_ack_counterexample :
    waitForOk true false ["error", "ok"] = .raised .err ∧
    waitForOk false false ["error", "ok"] = .raised .err ∧
    ¬ waitForOk false false ["error", "ok"] = .done ["error", "ok"] [] := by
  decide

/-- Claim C1 (amended): if additionally no prior line contains error, ALARM
or the reset phrase, then wait_for_ok with reset_expected false, with an
acknowledgement threshold of 1 on both Windows and POSIX, terminates after
consuming exactly the final ok line and returns all prior lines plus that
line, without the synthetic empty seed element. -/
theorem c1_ack_termination (osNt : Bool) (prior : List String)
    (h : ∀ l ∈ prior, quietBeforeOk l = true) :
    waitForOk osNt false (prior ++ ["ok"]) = .done (prior ++ ["ok"]) [] := by
  have e1 : occursIn "error" "ok" = false := by decide
  have e2 : occursIn "ALARM" "ok" = false := by decide
  have e3 : matchesEolStrings ["Using reset pos!"] "ok" = false := by decide
  have e4 : matchesEolStrings ["ok"] "ok" = true := by decide
  have key : waitForOkAux false ["ok"] ["Using reset pos!"] 1 (prior ++ ["ok"]) [""] 0 =
      .done ("" :: (prior ++ ["ok"])) [] := by
    rw [waitForOkAux_quiet prior h ["ok"] [""]]
    have hfin : waitForOkAux false ["ok"] ["Using reset pos!"] 1 ["ok"] ([""] ++ prior) 0 =
        .done (([""] ++ prior) ++ ["ok"]) [] := by
      simp [waitForOkAux, e1, e2, e3, e4]
    rw [hfin]
    simp
  cases osNt <;> simp [waitForOk, key]

/-- Claim C1 witness: a concrete quiet two-line prefix followed by ok. -/
theorem c1_ack_termination_witness :
    waitForOk true false (["hello", ""] ++ ["ok"]) = .done (["hello", ""] ++ ["ok"]) [] :=
  c1_ack_termination true ["hello", ""] (by decide)

/-- Claim C3 (counterexample to the claim as stated): a received line
containing error does not let the wait continue: MirobotError is logged at
ERROR level, the ExitOnExceptionStreamHandler raises, and the wait aborts
instead of collecting the line and terminating on the later ok.  A line that
is simultaneously an error report and ends with ok likewise aborts instead of
counting toward acknowledgement. -/
theorem c3_error_counterexample :
    waitForOk false false ["error: bad", "ok"] = .raised .err ∧
    ¬ waitForOk false false ["error: bad", "ok"] = .done ["error: bad", "ok"] [] ∧
    waitForOk false false ["error: bad ok"] = .raised .err ∧
    ¬ waitForOk false false ["error: bad ok"] = .done ["error: bad ok"] [] := by
  decide

/-- Claim C3 (amended): when wait_for_ok reaches a line containing one of the
problem substrings (after any quiet lines), the wait aborts instead of
continuing, regardless of whatever lines would have followed, on Windows and
POSIX alike, through one of three mechanisms matching the source order of
checks: a line containing error aborts via the ERROR-level MirobotError log
that the ExitOnExceptionStreamHandler escalates into a raise (so a line that
both reports an error and ends with ok aborts rather than counting toward
acknowledgement); a line without error but with the colon form of the alarm
marker aborts via the escalated ERROR-level MirobotAlarm log; and a line
without error containing ALARM but not its colon form aborts with the
IndexError raised while the log argument is built from the second piece of
the split, before anything is logged. -/
theorem c3_error_aborts (osNt : Bool) (prior tail' : List String) (m1 m2 m3 : String)
    (h : ∀ l ∈ prior, quietBeforeOk l = true)
    (he : occursIn "error" m1 = true)
    (ha1 : occursIn "error" m2 = false)
    (ha2 : occursIn "ALARM" m2 = true)
    (ha3 : occursIn "ALARM: " m2 = true)
    (hb1 : occursIn "error" m3 = false)
    (hb2 : occursIn "ALARM" m3 = true)
    (hb3 : occursIn "ALARM: " m3 = false) :
    waitForOk osNt false (prior ++ m1 :: tail') = .raised .err ∧
    waitForOk osNt false (prior ++ m2 :: tail') = .raised .alarm ∧
    waitForOk osNt false (prior ++ m3 :: tail') = .raised .indexErr := by
  refine ⟨?_, ?_, ?_⟩
  · have key : waitForOkAux false ["ok"] ["Using reset pos!"] 1 (prior ++ m1 :: tail') [""] 0 =
        .raised .err := by
      rw [waitForOkAux_quiet prior h (m1 :: tail') [""]]
      simp [waitForOkAux, he]
    cases osNt <;> simp [waitForOk, key]
  · have key : waitForOkAux false ["ok"] ["Using reset pos!"] 1 (prior ++ m2 :: tail') [""] 0 =
        .raised .alarm := by
      rw [waitForOkAux_quiet prior h (m2 :: tail') [""]]
      simp [waitForOkAux, ha1, ha2, ha3]
    cases osNt <;> simp [waitForOk, key]
  · have key : waitForOkAux false ["ok"] ["Using reset pos!"] 1 (prior ++ m3 :: tail') [""] 0 =
        .raised .indexErr := by
      rw [waitForOkAux_quiet prior h (m3 :: tail') [""]]
      simp [waitForOkAux, hb1, hb2, hb3]
    cases osNt <;> simp [waitForOk, key]

/-- Claim C3 witness: after one quiet line, a line that is both an error
report and ends with ok aborts with the error condition; an alarm line in
colon form aborts with the alarm condition; and an alarm line without the
colon form aborts with the index error from building the log argument. -/
theorem c3_error_aborts_witness :
    waitForOk false false (["hello"] ++ "error: limit ok" :: ["ok"]) = .raised .err ∧
    waitForOk false false (["hello"] ++ "ALARM: hard limit" :: ["ok"]) = .raised .alarm ∧
    waitForOk false false (["hello"] ++ "ALARMx" :: ["ok"]) = .raised .indexErr :=
  c3_error_aborts false ["hello"] ["ok"] "error: limit ok" "ALARM: hard limit" "ALARMx"
    (by decide) (by decide) (by decide) (by decide) (by decide) (by decide) (by decide)
    (by decide)

/-- Claim C5 (counterexample to the claim as stated): a scripted sequence that
contains the reset phrase line does not always raise the reset condition:
when an earlier line already matches ok, wait_for_ok terminates normally
before the reset line is ever read. -/
theorem c5_reset_counterexample :
    waitForOk false false ["ok", "Using reset pos!"] = .done ["ok"] ["Using reset pos!"] ∧
    ¬ waitForOk false false ["ok", "Using reset pos!"] = .raised .reset := by
  decide

/-- Claim C5 (amended): when wait_for_ok with reset_expected false reaches a
line containing the phrase Using reset pos! (after any quiet lines), and that
line does not itself contain error or ALARM, the wait raises the
distinguished reset condition (the ERROR-level MirobotReset log raised by the
ExitOnExceptionStreamHandler) instead of returning normally. -/
theorem c5_reset_raises (osNt : Bool) (prior tail' : List String) (msg : String)
    (h : ∀ l ∈ prior, quietBeforeOk l = true)
    (hr : occursIn "Using reset pos!" msg = true)
    (he : occursIn "error" msg = false)
    (ha : occursIn "ALARM" msg = false) :
    waitForOk osNt false (prior ++ msg :: tail') = .raised .reset := by
  have hm : matchesEolStrings ["Using reset pos!"] msg = true := by
    simp [matchesEolStrings, hr]
  have key : waitForOkAux false ["ok"] ["Using reset pos!"] 1 (prior ++ msg :: tail') [""] 0 =
      .raised .reset := by
    rw [waitForOkAux_quiet prior h (msg :: tail') [""]]
    simp [waitForOkAux, he, ha, hm]
  cases osNt <;> simp [waitForOk, key]

/-- Claim C5 witness: a quiet line followed by the reset banner raises the
reset condition. -/
theorem c5_reset_raises_witness :
    waitForOk true false (["hello"] ++ "Using reset pos!" :: []) = .raised .reset :=
  c5_reset_raises true ["hello"] [] "Using reset pos!" (by decide) (by decide) (by decide)
    (by decide)

/-- Joint angles dataclass MirobotAngles: seven optional values, all None by
default in the source dataclass. -/
structure MirobotAngles where
  a : Option ℚ
  b : Option ℚ
  c : Option ℚ
  x : Option ℚ
  y : Option ℚ
  z : Option ℚ
  d : Option ℚ
deriving DecidableEq

/-- Cartesian pose dataclass MirobotCartesians: six optional values. -/
structure MirobotCartesians where
  x : Option ℚ
  y : Option ℚ
  z : Option ℚ
  a : Option ℚ
  b : Option ℚ
  c : Option ℚ
deriving DecidableEq

/-- Status dataclass MirobotStatus. -/
structure MirobotStatus where
  state : String
  angle : MirobotAngles
  cartesian : MirobotCartesians
  pump_pwm : Option ℕ
  valve_pwm : Option ℕ
  motion_mode : Bool
deriving DecidableEq

/-- Python str.split on a single separator character; an empty string yields
one empty piece, a trailing separator yields a trailing empty piece. -/
def splitOnChar (sep : Char) : List Char → List (List Char)
  | [] => [[]]
  | c :: t =>
    if c = sep then [] :: splitOnChar sep t
    else
      match splitOnChar sep t with
      | [] => [[c]]
      | h :: r => (c :: h) :: r

/-- Decimal value of a digit run. -/
def digitsToNat (ds : List Char) : ℕ :=
  ds.foldl (fun n c => 10 * n + (c.toNat - 48)) 0

/-- Python float() on the tokens reachable from the status character classes:
an optional sign, then digits with at most one decimal point and at least one
digit overall.  Returns None where Python raises ValueError. -/
def pyFloat (cs : List Char) : Option ℚ :=
  let signed : Bool × List Char :=
    match cs with
    | '-' :: t => (true, t)
    | '+' :: t => (false, t)
    | _ => (false, cs)
  let body := signed.2
  let val : Option ℚ :=
    match splitOnChar '.' body with
    | [ip] =>
      if ip ≠ [] ∧ ip.all Char.isDigit then some (mkRat (digitsToNat ip) 1) else none
    | [ip, fp] =>
      if (ip ≠ [] ∨ fp ≠ []) ∧ ip.all Char.isDigit ∧ fp.all Char.isDigit then
        some (mkRat (digitsToNat ip * 10 ^ fp.length + digitsToNat fp) (10 ^ fp.length))
      else none
    | _ => none
  if signed.1 then val.map (fun q => -q) else val

example : pyFloat "1.5".data = some (mkRat 3 2) := by decide
example : pyFloat "-2".data = some (-(mkRat 2 1)) := by decide
example : pyFloat "".data = none := by decide
example : pyFloat "-".data = none := by decide
example : pyFloat ".".data = none := by decide
example : pyFloat "5.".data = some (mkRat 5 1) := by decide
example : pyFloat ".25".data = some (mkRat 1 4) := by decide
example : pyFloat "1.2.3".data = none := by decide
example : pyFloat "1-2".data = none := by decide

/-- Character class of the two numeric CSV groups of the status pattern:
minus sign, decimal point, digit or comma. -/
def statusCsvChar (c : Char) : Bool :=
  c = '-' || c = '.' || c.isDigit || c = ','

/-- Match one CSV group of the status pattern followed by a comma and a
literal: the group class admits the comma but not the first letter of the
following literal, so the regex backtracking admits exactly one split, with
the comma as last class character.  Returns the group and the remainder after
the literal. -/
def csvGroupThen (lit : List Char) (cs : List Char) : Option (List Char × List Char) :=
  let run := cs.takeWhile statusCsvChar
  match run.getLast? with
  | some ',' =>
    match takesLit lit (cs.drop run.length) with
    | some r => some (run.dropLast, r)
    | none => none
  | _ => none

/-- Match a nonempty digit group followed by a literal beginning with a
non-digit, as for the two PWM fields: the greedy digit run is the unique
match. -/
def digitGroupThen (lit : List Char) (cs : List Char) : Option (List Char × List Char) :=
  let run := cs.takeWhile Char.isDigit
  if run.isEmpty then none
  else
    match takesLit lit (cs.drop run.length) with
    | some r => some (run, r)
    | none => none

/-- The six captured groups of the status regular expression. -/
structure StatusGroups where
  state : List Char
  angles : List Char
  cartesians : List Char
  pump : List Char
  valve : List Char
  motion : Char
deriving DecidableEq

/-- Match of the status regular expression at one starting position.  The
pattern is anchored on the literal angle bracket; the state group is the
comma-free run, each CSV group is delimited as in csvGroupThen, the PWM
groups are digit runs and the motion group is a single digit followed by the
closing bracket; trailing characters are ignored as re.search does. -/
def matchStatusAt : List Char → Option StatusGroups
  | '<' :: r0 =>
    let g1 := r0.takeWhile (fun c => c ≠ ',')
    match takesLit ",Angle(ABCDXYZ):".data (r0.drop g1.length) with
    | none => none
    | some r1 =>
      match csvGroupThen "Cartesian coordinate(XYZ RxRyRz):".data r1 with
      | none => none
      | some (g2, r2) =>
        match csvGroupThen "Pump PWM:".data r2 with
        | none => none
        | some (g3, r3) =>
          match digitGroupThen ",Valve PWM:".data r3 with
          | none => none
          | some (g4, r4) =>
            match digitGroupThen ",Motion_MODE:".data r4 with
            | none => none
            | some (g5, r5) =>
              match r5 with
              | c :: '>' :: _ => if c.isDigit then some ⟨g1, g2, g3, g4, g5, c⟩ else none
              | _ => none
  | _ => none

/-- re.search for the status pattern: the leftmost starting position at which
the pattern matches. -/
def searchStatus : List Char → Option StatusGroups
  | [] => none
  | c :: t =>
    match matchStatusAt (c :: t) with
    | some g => some g
    | none => searchStatus t

/-- The keyword step dict(zip('xyzdabc', values)) of _parse_status followed by
the MirobotAngles construction: the values are assigned positionally to
fields x, y, z, d, a, b, c and missing positions stay None. -/
def anglesFromValues (vs : List ℚ) : MirobotAngles :=
  { x := vs[0]?, y := vs[1]?, z := vs[2]?, d := vs[3]?,
    a := vs[4]?, b := vs[5]?, c := vs[6]? }

/-- The positional step MirobotCartesians(*values) of _parse_status: values
are assigned to fields x, y, z, a, b, c in order; missing positions stay
None.  More than six values raises in Python and is checked by the caller of
this helper. -/
def cartesiansFromValues (vs : List ℚ) : MirobotCartesians :=
  { x := vs[0]?, y := vs[1]?, z := vs[2]?, a := vs[3]?, b := vs[4]?, c := vs[5]? }

/-- WlkataMirobot._parse_status (identical in
WlkataMirobotGcodeProtocol._parse_status): search for the status pattern
anywhere in the line; convert the first at most seven angle CSV tokens (the
lazy zip truncates the rest) and all cartesian CSV tokens with float(), the
two PWM groups with int(), and the motion-mode digit string with bool()
(which is True for any nonempty string, including the digit 0).  None models
the paths where the source raises out of the parse through an ERROR-level
log: pattern absent, a float conversion error, or more than six cartesian
values. -/
def parseStatus (msg : String) : Option MirobotStatus :=
  match searchStatus msg.data with
  | none => none
  | some g =>
    match ((splitOnChar ',' g.angles).take 7).mapM pyFloat with
    | none => none
    | some avs =>
      match (splitOnChar ',' g.cartesians).mapM pyFloat with
      | none => none
      | some cvs =>
        if 6 < cvs.length then none
        else
          some { state := String.mk g.state
                 angle := anglesFromValues avs
                 cartesian := cartesiansFromValues cvs
                 pump_pwm := some (digitsToNat g.pump)
                 valve_pwm := some (digitsToNat g.valve)
                 motion_mode := !(String.mk [g.motion]).isEmpty }

example : parseStatus "<Idle,Angle(ABCDXYZ):0,0,0,0,0,0,0,Cartesian coordinate(XYZ RxRyRz):0,0,0,0,0,0,Pump PWM:0,Valve PWM:0,Motion_MODE:0>" =
    some { state := "Idle"
           angle := { a := some (mkRat 0 1), b := some (mkRat 0 1), c := some (mkRat 0 1),
                      x := some (mkRat 0 1), y := some (mkRat 0 1), z := some (mkRat 0 1),
                      d := some (mkRat 0 1) }
           cartesian := { x := some (mkRat 0 1), y := some (mkRat 0 1), z := some (mkRat 0 1),
                          a := some (mkRat 0 1), b := some (mkRat 0 1), c := some (mkRat 0 1) }
           pump_pwm := some 0
           valve_pwm := some 0
           motion_mode := true } := by decide

example : parseStatus "<bad>" = none := by decide
example : parseStatus "no brackets" = none := by decide

example : parseStatus "noise <Run,Angle(ABCDXYZ):1.5,0,0,0,0,0,0,Cartesian coordinate(XYZ RxRyRz):0,0,0,0,0,0,Pump PWM:0,Valve PWM:0,Motion_MODE:1> trailing" =
    some { state := "Run"
           angle := { a := some (mkRat 0 1), b := some (mkRat 0 1), c := some (mkRat 0 1),
                      x := some (mkRat 3 2), y := some (mkRat 0 1), z := some (mkRat 0 1),
                      d := some (mkRat 0 1) }
           cartesian := { x := some (mkRat 0 1), y := some (mkRat 0 1), z := some (mkRat 0 1),
                          a := some (mkRat 0 1), b := some (mkRat 0 1), c := some (mkRat 0 1) }
           pump_pwm := some 0
           valve_pwm := some 0
           motion_mode := true } := by decide

/-- Decimal rendering of a rational whose scaled value by 100 is integral,
in the style of Python repr of such a float: at least one integer digit and
at least one fractional digit, a trailing zero in the hundredths place
dropped.  Used only by the spec-side status formatter. -/
def renderFloat (q : ℚ) : String :=
  if (q.num * 100) % (q.den : ℤ) = 0 then
    let c : ℤ := (q.num * 100) / (q.den : ℤ)
    let sign := if c < 0 then "-" else ""
    let a := c.natAbs
    let ip := a / 100
    let fp := a % 100
    let fpart := if fp % 10 = 0 then toString (fp / 10)
      else (if fp < 10 then "0" else "") ++ toString fp
    sign ++ toString ip ++ "." ++ fpart
  else toString q.num ++ "/" ++ toString q.den

example : renderFloat (mkRat 1 1) = "1.0" := by decide
example : renderFloat (mkRat 3 2) = "1.5" := by decide
example : renderFloat (-(mkRat 1 20)) = "-0.05" := by decide
example : renderFloat (mkRat 123 100) = "1.23" := by decide

/-- A representable status snapshot as described by the spec: a state tag,
seven joint values named after the MirobotAngles fields, six cartesian
values, the two PWM integers and the motion-mode flag. -/
structure StatusSnapshot where
  state : String
  a : ℚ
  b : ℚ
  c : ℚ
  d : ℚ
  x : ℚ
  y : ℚ
  z : ℚ
  cx : ℚ
  cy : ℚ
  cz : ℚ
  ca : ℚ
  cb : ℚ
  cc : ℚ
  pump : ℕ
  valve : ℕ
  motion : Bool
deriving DecidableEq

/-- Modelled from the spec: the fixed status-line grammar of section 4.3,
STATE then Angle(ABCDXYZ) with the seven values a,b,c,d,x,y,z in the order
the grammar writes them, then the six cartesian values, the PWM integers and
the motion-mode digit. -/
def formatStatusSpec (s : StatusSnapshot) : String :=
  "<" ++ s.state ++ ",Angle(ABCDXYZ):" ++
    renderFloat s.a ++ "," ++ renderFloat s.b ++ "," ++ renderFloat s.c ++ "," ++
    renderFloat s.d ++ "," ++ renderFloat s.x ++ "," ++ renderFloat s.y ++ "," ++
    renderFloat s.z ++
    ",Cartesian coordinate(XYZ RxRyRz):" ++
    renderFloat s.cx ++ "," ++ renderFloat s.cy ++ "," ++ renderFloat s.cz ++ "," ++
    renderFloat s.ca ++ "," ++ renderFloat s.cb ++ "," ++ renderFloat s.cc ++
    ",Pump PWM:" ++ toString s.pump ++ ",Valve PWM:" ++ toString s.valve ++
    ",Motion_MODE:" ++ (if s.motion then "1" else "0") ++ ">"

/-- The MirobotStatus a faithful round trip would have to reproduce from a
representable snapshot: every field populated with the value it was
formatted from. -/
def snapshotStatus (s : StatusSnapshot) : MirobotStatus :=
  { state := s.state
    angle := { a := some s.a, b := some s.b, c := some s.c, d := some s.d,
               x := some s.x, y := some s.y, z := some s.z }
    cartesian := { x := some s.cx, y := some s.cy, z := some s.cz,
                   a := some s.ca, b := some s.cb, c := some s.cc }
    pump_pwm := some s.pump
    valve_pwm := some s.valve
    motion_mode := s.motion }

/-- The concrete snapshot on which the round trip fails. -/
def c2Snapshot : StatusSnapshot :=
  { state := "Idle"
    a := mkRat 1 1, b := mkRat 2 1, c := mkRat 3 1, d := mkRat 4 1,
    x := mkRat 5 1, y := mkRat 6 1, z := mkRat 7 1,
    cx := mkRat 10 1, cy := mkRat 20 1, cz := mkRat 30 1,
    ca := mkRat 40 1, cb := mkRat 50 1, cc := mkRat 60 1,
    pump := 0, valve := 40, motion := false }

example : formatStatusSpec c2Snapshot =
  "<Idle,Angle(ABCDXYZ):1.0,2.0,3.0,4.0,5.0,6.0,7.0,Cartesian coordinate(XYZ RxRyRz):10.0,20.0,30.0,40.0,50.0,60.0,Pump PWM:0,Valve PWM:40,Motion_MODE:0>" := by decide

/-- Claim C2: the status a parse of the formatted c2Snapshot actually
produces: the first angle CSV value (formatted from field a) lands in field
x and the seventh (formatted from z) in field c, because _parse_status zips
the values against the letters xyzdabc, and motion_mode parses to True even
though the digit is 0, because bool is applied to the nonempty digit string. -/
def c2Parsed : MirobotStatus :=
  { state := "Idle"
    angle := { x := some (mkRat 1 1), y := some (mkRat 2 1), z := some (mkRat 3 1),
               d := some (mkRat 4 1), a := some (mkRat 5 1), b := some (mkRat 6 1),
               c := some (mkRat 7 1) }
    cartesian := { x := some (mkRat 10 1), y := some (mkRat 20 1), z := some (mkRat 30 1),
                   a := some (mkRat 40 1), b := some (mkRat 50 1), c := some (mkRat 60 1) }
    pump_pwm := some 0
    valve_pwm := some 40
    motion_mode := true }

/-- Claim C2 (code bug): parse(format(snapshot)) does not reproduce the
snapshot.  At the concrete representable snapshot c2Snapshot (comma-free
state Idle, seven distinct angle values, Motion_MODE digit 0), _parse_status
succeeds but returns c2Parsed, in which the Motion_MODE digit 0 has become
motion_mode true (bool of a nonempty string) and the angle value formatted
from field a has been assigned to field x (zip against xyzdabc), so the
round-trip property of the spec fails on the code. -/
theorem c2_roundtrip_code_bug :
    parseStatus (formatStatusSpec c2Snapshot) = some c2Parsed ∧
    c2Parsed ≠ snapshotStatus c2Snapshot ∧
    c2Parsed.motion_mode = true ∧
    (snapshotStatus c2Snapshot).motion_mode = false ∧
    c2Parsed.angle.x = some (mkRat 1 1) ∧
    (snapshotStatus c2Snapshot).angle.x = some (mkRat 5 1) := by
  decide

/-- Outcome of one WlkataMirobot.get_status call on a scripted list of
replies to the repeated ? query: a committed snapshot together with the
number of status queries issued and the unconsumed script, an abort raised
out of _parse_status through an ERROR-level log, or an infinite retry loop
once the script is exhausted. -/
inductive StatusFetchOutcome where
  | committed : ℕ → MirobotStatus → List String → StatusFetchOutcome
  | raisedStatus : StatusFetchOutcome
  | starved : StatusFetchOutcome
deriving DecidableEq

/-- One more status query before the recorded outcome. -/
def StatusFetchOutcome.addQ : StatusFetchOutcome → StatusFetchOutcome
  | .committed n st rest => .committed (n + 1) st rest
  | r => r

/-- WlkataMirobot.get_status: query, read a reply; a reply without both angle
brackets leaves the status None and the loop retries with the next reply; a
reply with both brackets is handed to _parse_status, whose failure raises
(SystemExit from the ERROR-level MirobotStatusError log is not caught by the
except Exception clause) while success commits the snapshot via _set_status. -/
def getStatusM : List String → StatusFetchOutcome
  | [] => .starved
  | m :: rest =>
    if m.data.contains '<' && m.data.contains '>' then
      match parseStatus m with
      | some st => .committed 1 st rest
      | none => .raisedStatus
    else (getStatusM rest).addQ

/-- Outcome of WlkataMirobotSerial.wait_until_idle on a scripted reply list:
return once a committed snapshot has state Idle (with the total number of
status queries issued), an abort raised from the parse, or starvation when
the script runs out before an Idle snapshot. -/
inductive IdleWaitOutcome where
  | idle : ℕ → MirobotStatus → IdleWaitOutcome
  | raised : IdleWaitOutcome
  | starved : IdleWaitOutcome
deriving DecidableEq

/-- Add already-issued status queries to the recorded outcome. -/
def IdleWaitOutcome.addQn (n : ℕ) : IdleWaitOutcome → IdleWaitOutcome
  | .idle m st => .idle (m + n) st
  | r => r

/-- A committed get_status outcome consumes at least one scripted reply. -/
theorem getStatusM_committed_length :
    ∀ {script : List String} {q : ℕ} {st : MirobotStatus} {rest : List String},
      getStatusM script = .committed q st rest → rest.length < script.length := by
  intro script
  induction script with
  | nil => intro q st rest h; simp [getStatusM] at h
  | cons m t ih =>
    intro q st rest h
    by_cases hb : (m.data.contains '<' && m.data.contains '>') = true
    · rw [getStatusM, if_pos hb] at h
      cases hp : parseStatus m with
      | some s => rw [hp] at h; cases h; simp
      | none => rw [hp] at h; cases h
    · rw [getStatusM, if_neg hb] at h
      cases hq : getStatusM t with
      | committed n s r =>
        rw [hq] at h
        cases h
        exact Nat.lt_trans (ih hq) (by simp)
      | raisedStatus => rw [hq] at h; cases h
      | starved => rw [hq] at h; cases h

/-- WlkataMirobotSerial.wait_until_idle: refresh the status with get_status
and keep re-querying (at the refresh interval) while the committed snapshot's
state differs from Idle. -/
def waitUntilIdleM (script : List String) : IdleWaitOutcome :=
  match h : getStatusM script with
  | .starved => .starved
  | .raisedStatus => .raised
  | .committed q st rest =>
    if st.state = "Idle" then .idle q st
    else (waitUntilIdleM rest).addQn q
termination_by script.length
decreasing_by exact getStatusM_committed_length h

/-- Unfolding of waitUntilIdleM when get_status commits a snapshot. -/
theorem waitUntilIdleM_committed {script rest : List String} {q : ℕ} {st : MirobotStatus}
    (h : getStatusM script = .committed q st rest) :
    waitUntilIdleM script =
      if st.state = "Idle" then .idle q st else (waitUntilIdleM rest).addQn q := by
  rw [waitUntilIdleM]
  split
  · next heq => rw [h] at heq; cases heq
  · next heq => rw [h] at heq; cases heq
  · next q' st' rest' heq =>
    rw [h] at heq
    cases heq
    rfl

/-- Claim C4 (counterexample to the claim as stated): parse failure is not
always local and partial snapshots are committed.  First, a status reply
containing both angle brackets but not matching the grammar makes get_status
abort (the ERROR-level MirobotStatusError log raises SystemExit, which the
except Exception clause does not catch) instead of retrying onto the
well-formed reply that follows.  Second, a grammar-matching reply whose CSV
groups carry fewer values than fields parses successfully and commits a
snapshot whose remaining joint and cartesian fields are defaulted to None. -/
theorem c4_parse_failure_counterexample :
    getStatusM ["<bad>",
      "<Idle,Angle(ABCDXYZ):0,0,0,0,0,0,0,Cartesian coordinate(XYZ RxRyRz):0,0,0,0,0,0,Pump PWM:0,Valve PWM:0,Motion_MODE:0>"] =
      .raisedStatus ∧
    getStatusM ["<Home,Angle(ABCDXYZ):1,2,Cartesian coordinate(XYZ RxRyRz):3,Pump PWM:4,Valve PWM:5,Motion_MODE:1>"] =
      .committed 1
        { state := "Home"
          angle := { x := some (mkRat 1 1), y := some (mkRat 2 1), z := none, d := none,
                     a := none, b := none, c := none }
          cartesian := { x := some (mkRat 3 1), y := none, z := none,
                         a := none, b := none, c := none }
          pump_pwm := some 4
          valve_pwm := some 5
          motion_mode := true } [] := by
  decide

/-- Claim C4 (amended): the retry is confined to replies that lack one of the
angle brackets, which leave the stored status untouched and re-issue the
query; a reply containing both brackets whose parse fails is escalated out of
get_status by the ERROR-level log instead of being retried.  (A successful
parse, even of a value-starved line, commits its snapshot.) -/
theorem c4_parse_failure_amended (m1 m2 : String) (r1 r2 : List String)
    (h1 : (m1.data.contains '<' && m1.data.contains '>') = false)
    (h2 : (m2.data.contains '<' && m2.data.contains '>') = true)
    (h3 : parseStatus m2 = none) :
    getStatusM (m1 :: r1) = (getStatusM r1).addQ ∧
    getStatusM (m2 :: r2) = .raisedStatus := by
  constructor
  · rw [getStatusM, if_neg (by rw [h1]; exact Bool.false_ne_true)]
  · rw [getStatusM, if_pos h2, h3]

/-- Claim C4 witness: a bracket-less reply is retried past; a bracketed
non-matching reply aborts. -/
theorem c4_parse_failure_amended_witness :
    getStatusM ["ok"] = (getStatusM []).addQ ∧
    getStatusM ["<bad>", "ok"] = .raisedStatus :=
  c4_parse_failure_amended "ok" "<bad>" [] ["ok"] (by decide) (by decide) (by decide)

/-- Claim C8: if every reply before the last carries both angle brackets and
parses successfully to a snapshot whose state is not Idle, and the last reply
parses successfully to an Idle snapshot, then wait_until_idle issues exactly
one status query per reply (the length of the script), committing each
snapshot, and returns only after the final Idle one. -/
theorem c8_idle_convergence (pre : List String) (last : String) (sl : MirobotStatus)
    (hpre : ∀ m ∈ pre, (m.data.contains '<' && m.data.contains '>') = true ∧
      (parseStatus m).isSome = true ∧ Option.map MirobotStatus.state (parseStatus m) ≠ some "Idle")
    (hb : (last.data.contains '<' && last.data.contains '>') = true)
    (hl : parseStatus last = some sl) (hs : sl.state = "Idle") :
    waitUntilIdleM (pre ++ [last]) = .idle (pre.length + 1) sl := by
  induction pre with
  | nil =>
    have hg : getStatusM [last] = .committed 1 sl [] := by
      rw [getStatusM, if_pos hb, hl]
    rw [List.nil_append, waitUntilIdleM_committed hg, if_pos hs]
    simp
  | cons m t ih =>
    obtain ⟨hbm, hsome, hnotidle⟩ := hpre m (List.mem_cons_self m t)
    obtain ⟨s, hps⟩ := Option.isSome_iff_exists.mp hsome
    have hstate : ¬ s.state = "Idle" := by
      intro hcon
      rw [hps] at hnotidle
      simp [hcon] at hnotidle
    have hg : getStatusM (m :: (t ++ [last])) = .committed 1 s (t ++ [last]) := by
      rw [getStatusM, if_pos hbm, hps]
    rw [List.cons_append, waitUntilIdleM_committed hg, if_neg hstate]
    rw [ih (fun x hx => hpre x (List.mem_cons_of_mem m hx))]
    simp [IdleWaitOutcome.addQn]

/-- Claim C8 witness: two Run replies then an Idle reply give exactly three
status queries, returning after the third with the Idle snapshot. -/
theorem c8_idle_convergence_witness :
    waitUntilIdleM
      ["<Run,Angle(ABCDXYZ):0,0,0,0,0,0,0,Cartesian coordinate(XYZ RxRyRz):0,0,0,0,0,0,Pump PWM:0,Valve PWM:0,Motion_MODE:0>",
       "<Run,Angle(ABCDXYZ):0,0,0,0,0,0,0,Cartesian coordinate(XYZ RxRyRz):0,0,0,0,0,0,Pump PWM:0,Valve PWM:0,Motion_MODE:0>",
       "<Idle,Angle(ABCDXYZ):0,0,0,0,0,0,0,Cartesian coordinate(XYZ RxRyRz):0,0,0,0,0,0,Pump PWM:0,Valve PWM:0,Motion_MODE:0>"] =
      .idle 3
        { state := "Idle"
          angle := { a := some (mkRat 0 1), b := some (mkRat 0 1), c := some (mkRat 0 1),
                     x := some (mkRat 0 1), y := some (mkRat 0 1), z := some (mkRat 0 1),
                     d := some (mkRat 0 1) }
          cartesian := { x := some (mkRat 0 1), y := some (mkRat 0 1), z := some (mkRat 0 1),
                         a := some (mkRat 0 1), b := some (mkRat 0 1), c := some (mkRat 0 1) }
          pump_pwm := some 0
          valve_pwm := some 0
          motion_mode := true } :=
  c8_idle_convergence
    ["<Run,Angle(ABCDXYZ):0,0,0,0,0,0,0,Cartesian coordinate(XYZ RxRyRz):0,0,0,0,0,0,Pump PWM:0,Valve PWM:0,Motion_MODE:0>",
     "<Run,Angle(ABCDXYZ):0,0,0,0,0,0,0,Cartesian coordinate(XYZ RxRyRz):0,0,0,0,0,0,Pump PWM:0,Valve PWM:0,Motion_MODE:0>"]
    "<Idle,Angle(ABCDXYZ):0,0,0,0,0,0,0,Cartesian coordinate(XYZ RxRyRz):0,0,0,0,0,0,Pump PWM:0,Valve PWM:0,Motion_MODE:0>"
    _ (by decide) (by decide) (by decide) (by decide)

/-- A non-None value a movement-command parameter can carry: Python int or
float (floats idealized as rationals). -/
inductive GArg where
  | intVal : ℤ → GArg
  | floatVal : ℚ → GArg
deriving DecidableEq

/-- Python round(x, 2) idealized over exact rationals: scale by one hundred
and round half to even. -/
def pyRound2 (q : ℚ) : ℚ :=
  let num := q.num * 100
  let den : ℤ := q.den
  let n := Int.fdiv num den
  let r2 := 2 * (num - n * den)
  let r : ℤ :=
    if r2 < den then n
    else if den < r2 then n + 1
    else if n % 2 = 0 then n else n + 1
  mkRat r 100

/-- WlkataMirobot.format_float_value restricted to the non-None values the
comprehension passes it: a float is rounded to two decimal places, anything
else is returned unchanged. -/
def format_float_value : GArg → GArg
  | .floatVal q => .floatVal (pyRound2 q)
  | v => v

/-- The f-string rendering of a parameter value: str of an int, repr of a
float. -/
def gargRepr : GArg → String
  | .intVal n => toString n
  | .floatVal q => renderFloat q

/-- WlkataMirobot.generate_args_string: keep the pairs whose value is not
None, render each as key followed by the formatted value, and join the
instruction and the argument tokens with single spaces. -/
def generate_args_string (instruction : String) (pairings : List (String × Option GArg)) :
    String :=
  let args := pairings.filterMap
    (fun p => p.2.map (fun v => p.1 ++ gargRepr (format_float_value v)))
  String.intercalate " " (instruction :: args)

/-- Concatenation of a list of strings. -/
def joinAll : List String → String
  | [] => ""
  | s :: rest => s ++ joinAll rest

/-- The go loop of String.intercalate appends separator-prefixed copies of
the remaining strings to its accumulator. -/
theorem intercalateGoJoin (s : String) : ∀ (as : List String) (acc : String),
    String.intercalate.go acc s as = acc ++ joinAll (as.map (fun a => s ++ a)) := by
  intro as
  induction as with
  | nil => intro acc; simp [String.intercalate.go, joinAll]
  | cons a t ih =>
    intro acc
    rw [String.intercalate.go, ih (acc ++ s ++ a)]
    simp [joinAll, String.append_assoc]

/-- Claim C6: generate_args_string on the instruction M21 G90 with X mapped
to float 1.0, Y mapped to None and F mapped to int 2000 yields exactly
M21 G90 X1.0 F2000; and in general the generated line is the instruction
followed, for exactly the parameters whose value is not None, by a single
space, the key, and the value rendered after two-decimal rounding of floats;
None parameters contribute nothing and there is no trailing space. -/
theorem c6_sparse_argument_encoding :
    generate_args_string "M21 G90"
      [("X", some (.floatVal (mkRat 1 1))), ("Y", none), ("F", some (.intVal 2000))] =
      "M21 G90 X1.0 F2000" ∧
    ∀ (instruction : String) (pairings : List (String × Option GArg)),
      generate_args_string instruction pairings =
        instruction ++ joinAll (pairings.filterMap
          (fun p => p.2.map (fun v => " " ++ (p.1 ++ gargRepr (format_float_value v))))) := by
  constructor
  · decide
  · intro instruction pairings
    rw [generate_args_string, String.intercalate, intercalateGoJoin]
    rw [List.map_filterMap]
    simp only [Option.map_map]
    rfl

/-- The DeviceSerial transport state: the _is_open bookkeeping flag of the
wrapper and the open state of the underlying pyserial port it tracks. -/
structure DeviceSerial where
  _is_open : Bool
  portOpen : Bool
deriving DecidableEq

/-- DeviceSerial.close: only when the bookkeeping flag is set, clear it and
close the underlying port; otherwise do nothing. -/
def DeviceSerial.close (d : DeviceSerial) : DeviceSerial :=
  if d._is_open then { _is_open := false, portOpen := false } else d

/-- WlkataMirobotSerial.disconnect: close the serial device when the
attribute exists (None models a missing or torn-down serial_device). -/
def disconnectM : Option DeviceSerial → Option DeviceSerial
  | none => none
  | some d => some d.close

/-- close after close changes nothing, whatever the starting state. -/
theorem deviceSerialCloseIdem (d : DeviceSerial) : d.close.close = d.close := by
  rcases d with ⟨f, p⟩
  cases f <;> simp [DeviceSerial.close]

/-- Claim C9: when the bookkeeping flag agrees with the port state, closing
leaves the transport closed, a second close is a no-op leaving the same
closed state, and disconnect after disconnect likewise changes nothing. -/
theorem c9_idempotent_close (d : DeviceSerial) (h : d._is_open = d.portOpen) :
    d.close.close = d.close ∧
    d.close.portOpen = false ∧ d.close._is_open = false ∧
    d.close.close.portOpen = false ∧ d.close.close._is_open = false ∧
    ∀ w : Option DeviceSerial, disconnectM (disconnectM w) = disconnectM w := by
  refine ⟨deviceSerialCloseIdem d, ?_, ?_, ?_, ?_, ?_⟩
  · rcases d with ⟨f, p⟩; cases f <;> simp_all [DeviceSerial.close]
  · rcases d with ⟨f, p⟩; cases f <;> simp_all [DeviceSerial.close]
  · rw [deviceSerialCloseIdem]
    rcases d with ⟨f, p⟩; cases f <;> simp_all [DeviceSerial.close]
  · rw [deviceSerialCloseIdem]
    rcases d with ⟨f, p⟩; cases f <;> simp_all [DeviceSerial.close]
  · intro w
    rcases w with _ | d'
    · rfl
    · simp [disconnectM, deviceSerialCloseIdem]

/-- Claim C9 witness: an open transport. -/
theorem c9_idempotent_close_witness :
    (DeviceSerial.close (DeviceSerial.close ⟨true, true⟩)) = DeviceSerial.close ⟨true, true⟩ ∧
    (DeviceSerial.close ⟨true, true⟩).portOpen = false ∧
    (DeviceSerial.close ⟨true, true⟩)._is_open = false ∧
    (DeviceSerial.close (DeviceSerial.close ⟨true, true⟩)).portOpen = false ∧
    (DeviceSerial.close (DeviceSerial.close ⟨true, true⟩))._is_open = false ∧
    ∀ w : Option DeviceSerial, disconnectM (disconnectM w) = disconnectM w :=
  c9_idempotent_close ⟨true, true⟩ (by decide)

/-- Python str.strip(): drop whitespace from both ends. -/
def isPyWhite (c : Char) : Bool :=
  c = ' ' || c = '\t' || c = '\n' || c = '\r' || c = '\x0b' || c = '\x0c'

/-- Python str.strip() on a message. -/
def pyStrip (s : String) : String :=
  String.mk (((s.data.dropWhile isPyWhite).reverse.dropWhile isPyWhite).reverse)

/-- re.fullmatch of the variable-command pattern: a dollar sign, one or more
digits, an equals sign, then one or more characters that are each a digit or
a decimal point. -/
def isVarCommand (s : String) : Bool :=
  match s.data with
  | '$' :: rest =>
    let ds := rest.takeWhile Char.isDigit
    match rest.drop ds.length with
    | '=' :: vs => !ds.isEmpty && !vs.isEmpty && vs.all (fun c => c.isDigit || c = '.')
    | _ => false
  | _ => false

example : isVarCommand "$21=1" = true := by decide
example : isVarCommand "$21=1.5" = true := by decide
example : isVarCommand "$21=true" = false := by decide
example : isVarCommand "$=1" = false := by decide
example : isVarCommand "21=1" = false := by decide
example : isVarCommand "$21=" = false := by decide

/-- Result of one send_msg call. -/
inductive SendMsgResult where
  | raisedNotConnected : SendMsgResult
  | raisedVarCommand : SendMsgResult
  | wroteBool : Bool → SendMsgResult
  | ackLines : List String → SendMsgResult
  | aborted : AbortTag → SendMsgResult
  | hung : SendMsgResult
deriving DecidableEq

/-- WlkataMirobot.send_msg (and the WlkataMirobotSerial.send it delegates
to), returning the outcome and the list of messages written to the
transport: raise when not connected; strip the message; a var_command whose
stripped text does not fully match the variable pattern raises (the
ERROR-level MirobotVariableCommandError log) before anything is written;
wait_ok None is coerced to False (the stored class default is never read);
the raw write result of the open transport is True; then optionally collect
acknowledgement lines with wait_for_ok and optionally block in
wait_until_idle (whose None wait_idle is likewise coerced to False). -/
def sendMsgModel (connected _waitOkDefault osNt : Bool)
    (ackScript statusScript : List String) (msg : String) (varCommand : Bool)
    (waitOk waitIdle : Option Bool) : SendMsgResult × List String :=
  if connected then
    let m := pyStrip msg
    if varCommand && !isVarCommand m then (.raisedVarCommand, [])
    else
      let wOk := waitOk.getD false
      let wIdle := waitIdle.getD false
      let writes := [m]
      let step1 : SendMsgResult :=
        if wOk then
          match waitForOk osNt false ackScript with
          | .done lines _ => .ackLines lines
          | .raised t => .aborted t
          | .hang => .hung
        else .wroteBool connected
      match step1 with
      | .aborted t => (.aborted t, writes)
      | .hung => (.hung, writes)
      | r =>
        if wIdle then
          match waitUntilIdleM statusScript with
          | .idle _ _ => (r, writes)
          | .raised => (.aborted .statusErr, writes)
          | .starved => (.hung, writes)
        else (r, writes)
  else (.raisedNotConnected, [])

/-- Claim C7: for a connected device, a message sent with var_command True
whose stripped text does not fully match the variable pattern is rejected
(the validation log raises) with nothing written to the transport, whatever
the wait flags, scripts, platform and stored default are. -/
theorem c7_invalid_var_command_rejected (d osNt : Bool)
    (ackScript statusScript : List String) (msg : String) (waitOk waitIdle : Option Bool)
    (h : isVarCommand (pyStrip msg) = false) :
    sendMsgModel true d osNt ackScript statusScript msg true waitOk waitIdle =
      (.raisedVarCommand, []) := by
  simp [sendMsgModel, h]

/-- Claim C7 witness: send_msg of the message dollar 21 equals true with
var_command True is rejected before any write. -/
theorem c7_invalid_var_command_rejected_witness :
    sendMsgModel true false false [] [] "$21=true" true none none =
      (.raisedVarCommand, []) :=
  c7_invalid_var_command_rejected false false [] [] "$21=true" none none (by decide)

/-- Claim C10: on a connected device, send_msg with wait_ok None coerces
wait_ok to False without consulting the stored class default (the result is
the same for every value of the default), waits for no acknowledgement
lines, and with wait_idle False (explicit or by coercion of None) returns
the boolean result of the raw transport write, True, having written exactly
the stripped message. -/
theorem c10_wait_ok_none_coerced (d osNt : Bool) (ackScript statusScript : List String)
    (msg : String) :
    sendMsgModel true d osNt ackScript statusScript msg false none (some false) =
      (.wroteBool true, [pyStrip msg]) ∧
    sendMsgModel true d osNt ackScript statusScript msg false none none =
      (.wroteBool true, [pyStrip msg]) := by
  constructor <;> simp [sendMsgModel]
